import Mathlib

/-!
# wgtunnel: a shallow embedding of `tunnel.go`

The program bootstraps a WireGuard tunnel in a server or a client role.
It is a sequence of calls into the host (netlink, `ip`, wgctrl, docker,
signals).  The embedding makes the host explicit:

* `Host` is the list of network links; the netlink calls and
  `ip link add` act on it;
* `Env` fixes the answer of every external call that the program cannot
  compute itself (key material, name resolution, injected call failures,
  docker, whether an interrupt arrives);
* a process is a function `World → Step α`: it either returns a value or
  halts (`os.Exit`, a run-time panic, or blocking forever), and it records
  every external action in `World.trace`.
-/

namespace WgTunnel

/-! ## Constants of `tunnel.go` -/

def wgIfName : String := "wg-tunnel"
def listenPort : Nat := 51820
def wgAddrServer : String := "10.0.0.1/24"
def wgAddrClient : String := "10.0.0.2/24"

def nginxPublishedPort : String := "8080"
def nginxBindAddr : String := "10.0.0.1"

def peerAddrServer : String := "10.0.0.1/32"
def peerAddrClient : String := "10.0.0.2/32"

/-! ## Data of the libraries the program uses -/

/-- Text of a Go `error` value; `none : Option Error` is the `nil` error. -/
abbrev Error := String

/-- Key material, `wgtypes.Key`: a byte string (32 bytes when well formed). -/
structure Key where
  bytes : List Nat
  deriving DecidableEq, Repr

/-- An IPv4 network, `net.IPNet`: the (masked) address and the number of
leading one bits of the mask. -/
structure IPNet where
  ip : List Nat
  ones : Nat
  deriving DecidableEq, Repr

/-- A resolved UDP endpoint, `net.UDPAddr`. -/
structure UDPAddr where
  ip : List Nat
  port : Nat
  deriving DecidableEq, Repr

/-- Peer record `wgtypes.PeerConfig`; a field left out of a Go composite
literal has its zero value. -/
structure PeerConfig where
  PublicKey : Key
  Remove : Bool := false
  UpdateOnly : Bool := false
  PresharedKey : Option Key := none
  Endpoint : Option UDPAddr := none
  PersistentKeepaliveInterval : Option Nat := none
  ReplaceAllowedIPs : Bool := false
  AllowedIPs : List IPNet := []
  deriving DecidableEq, Repr

/-- Device record `wgtypes.Config`. -/
structure Config where
  PrivateKey : Option Key := none
  ListenPort : Option Nat := none
  FirewallMark : Option Nat := none
  ReplacePeers : Bool := false
  Peers : List PeerConfig := []
  deriving DecidableEq, Repr

/-- An address of a link, `netlink.Addr`: the address itself (not masked)
and the prefix length. -/
structure Addr where
  ip : List Nat
  ones : Nat
  deriving DecidableEq, Repr

/-- A network link of the host. -/
structure Link where
  name : String
  kind : String
  addrs : List Addr
  up : Bool
  deriving DecidableEq, Repr

/-- The links of the host, the state the provisioner acts on. -/
abbrev Host := List Link

/-! ## Parsing of IPv4 CIDR text (`net.ParseCIDR`, `netlink.ParseAddr`) -/

/-- Value of a decimal digit character. -/
def digitVal (c : Char) : Option Nat :=
  if 48 ≤ c.toNat ∧ c.toNat ≤ 57 then some (c.toNat - 48) else none

/-- Decimal number made of the digits `cs`, accumulated onto `acc`. -/
def parseDigits : List Char → Nat → Option Nat
  | [], acc => some acc
  | c :: cs, acc =>
    match digitVal c with
    | some d => parseDigits cs (acc * 10 + d)
    | none => none

/-- One field of a dotted quad: digits, no leading zero, at most 255. -/
def parseOctet (cs : List Char) : Option Nat :=
  match cs with
  | [] => none
  | c :: rest =>
    if c.toNat = 48 ∧ rest ≠ [] then none
    else
      match parseDigits cs 0 with
      | some n => if n ≤ 255 then some n else none
      | none => none

/-- Split `cs` at every occurrence of `sep`. -/
def splitOnChar (sep : Char) : List Char → List (List Char)
  | [] => [[]]
  | c :: cs =>
    if c = sep then [] :: splitOnChar sep cs
    else
      match splitOnChar sep cs with
      | [] => [[c]]
      | f :: fs => (c :: f) :: fs

/-- Dotted-quad IPv4 address. -/
def parseIPv4 (cs : List Char) : Option (List Nat) :=
  match splitOnChar '.' cs with
  | [a, b, c, d] =>
    match parseOctet a, parseOctet b, parseOctet c, parseOctet d with
    | some a, some b, some c, some d => some [a, b, c, d]
    | _, _, _, _ => none
  | _ => none

/-- The `i`-th octet `o` of an address under a mask of `ones` leading bits. -/
def maskOctet (ones i o : Nat) : Nat :=
  let keep := min 8 (ones - 8 * i)
  o - o % 2 ^ (8 - keep)

/-- Apply a mask of `ones` leading one bits to a four octet address. -/
def maskIP (ones : Nat) : List Nat → List Nat
  | [a, b, c, d] => [maskOctet ones 0 a, maskOctet ones 1 b, maskOctet ones 2 c, maskOctet ones 3 d]
  | ip => ip

/-- The part of `cs` before the first `sep` and the part after it. -/
def cutAt (sep : Char) : List Char → Option (List Char × List Char)
  | [] => none
  | c :: cs =>
    if c = sep then some ([], cs)
    else
      match cutAt sep cs with
      | some (a, b) => some (c :: a, b)
      | none => none

/-- Model of `net.ParseCIDR` on IPv4 text `a.b.c.d/n`: the address and the
network it lies in. -/
def ParseCIDR (s : String) : Option (List Nat × IPNet) :=
  match cutAt '/' s.data with
  | none => none
  | some (addr, mask) =>
    match parseIPv4 addr with
    | none => none
    | some ip =>
      if mask = [] then none
      else
        match parseDigits mask 0 with
        | none => none
        | some n => if n ≤ 32 then some (ip, { ip := maskIP n ip, ones := n }) else none

/-- Model of `netlink.ParseAddr` on text without a label: the address keeps
its host bits. -/
def ParseAddr (s : String) : Option Addr :=
  match ParseCIDR s with
  | some (ip, ipnet) => some { ip := ip, ones := ipnet.ones }
  | none => none

/-! ## Text form of keys (`wgtypes.ParseKey`, `Key.String`): standard base64 -/

/-- Value of a character of the standard base64 alphabet. -/
def b64Value (n : Nat) : Option Nat :=
  if 65 ≤ n ∧ n ≤ 90 then some (n - 65)
  else if 97 ≤ n ∧ n ≤ 122 then some (n - 97 + 26)
  else if 48 ≤ n ∧ n ≤ 57 then some (n - 48 + 52)
  else if n = 43 then some 62
  else if n = 47 then some 63
  else none

/-- Character of the standard base64 alphabet for a six bit value. -/
def b64Char (v : Nat) : Char :=
  Char.ofNat (if v < 26 then 65 + v else if v < 52 then 97 + (v - 26)
    else if v < 62 then 48 + (v - 52) else if v = 62 then 43 else 47)

/-- Decode padded base64, given as character codes. -/
def b64Decode : List Nat → Option (List Nat)
  | [] => some []
  | a :: b :: c :: d :: rest =>
    match b64Value a, b64Value b with
    | some x, some y =>
      if d = 61 ∧ rest = [] then
        if c = 61 then some [x * 4 + y / 16]
        else
          match b64Value c with
          | some z => some [x * 4 + y / 16, y % 16 * 16 + z / 4]
          | none => none
      else
        match b64Value c, b64Value d, b64Decode rest with
        | some z, some t, some bs => some ((x * 4 + y / 16) :: (y % 16 * 16 + z / 4) :: (z % 4 * 64 + t) :: bs)
        | _, _, _ => none
    | _, _ => none
  | _ => none

/-- Encode bytes as padded base64. -/
def b64Encode : List Nat → List Char
  | [] => []
  | [a] => [b64Char (a / 4), b64Char (a % 4 * 16), '=', '=']
  | [a, b] => [b64Char (a / 4), b64Char (a % 4 * 16 + b / 16), b64Char (b % 16 * 4), '=']
  | a :: b :: c :: rest =>
    b64Char (a / 4) :: b64Char (a % 4 * 16 + b / 16) :: b64Char (b % 16 * 4 + c / 64)
      :: b64Char (c % 64) :: b64Encode rest

/-- Model of `wgtypes.ParseKey`: base64 text (line breaks are skipped by the
decoder) of exactly 32 bytes. -/
def parseKeyBase64 (s : String) : Option Key :=
  match b64Decode ((s.data.map Char.toNat).filter (fun n => n ≠ 13 ∧ n ≠ 10)) with
  | some bs => if bs.length = 32 then some ⟨bs⟩ else none
  | none => none

/-- Model of `Key.String`. -/
def keyStringBase64 (k : Key) : String := String.mk (b64Encode k.bytes)

/-! ## The environment of a run -/

/-- Everything a run gets from outside: library functions on key material,
the answers of the resolver, wgctrl and docker, injected failures of the
netlink calls and of `ip`, and whether an interrupt is delivered. -/
structure Env where
  /-- Result of `wgtypes.ParseKey`; `none` is a non-nil error. -/
  ParseKey : String → Option Key
  /-- Result of `Key.String`. -/
  KeyString : Key → String
  /-- Result of `Key.PublicKey`. -/
  PublicKey : Key → Key
  /-- Result of the n-th call of `wgtypes.GeneratePrivateKey`. -/
  GeneratePrivateKey : Nat → Except Error Key
  /-- Result of `net.ResolveUDPAddr network address`. -/
  ResolveUDPAddr : String → String → Except Error UDPAddr
  /-- Error of `wgctrl.New`. -/
  wgctrlNew : Option Error
  /-- Error of `Client.ConfigureDevice name cfg`. -/
  ConfigureDevice : String → Config → Option Error
  /-- Error forced on `netlink.LinkDel`. -/
  linkDelErr : Option Error
  /-- Error forced on the `ip link add` command. -/
  linkAddErr : Option Error
  /-- Error forced on `netlink.AddrAdd`. -/
  addrAddErr : Option Error
  /-- Error forced on `netlink.LinkSetUp`. -/
  linkSetUpErr : Option Error
  /-- Combined output and error of any other command. -/
  command : List String → String × Option Error
  /-- Whether the process receives an interrupt while it waits. -/
  interrupt : Bool

/-! ## Processes -/

/-- An action of the process on its surroundings. -/
inductive Event where
  | print (text : String)
  | linkByName (name : String)
  | linkDel (name : String)
  | run (argv : List String)
  | addrAdd (name : String) (addr : Addr)
  | linkSetUp (name : String)
  | wgctrlNew
  | generatePrivateKey
  | resolveUDPAddr (network address : String)
  | configureDevice (name : String) (cfg : Config)
  | wgctrlClose
  | awaitInterrupt
  | interrupt
  deriving DecidableEq, Repr

/-- The state a process acts on. -/
structure World where
  host : Host
  trace : List Event
  keyCalls : Nat
  deriving DecidableEq, Repr

/-- Ways a process stops other than by returning from `main`. -/
inductive Halt where
  | exit (code : Nat)
  | panic
  | blocked
  deriving DecidableEq, Repr

/-- Result of running a piece of the program. -/
inductive Step (α : Type) where
  | ok (a : α) (w : World)
  | halt (h : Halt) (w : World)
  deriving Repr

/-- A piece of the program. -/
def Proc (α : Type) : Type := World → Step α

/-- Sequencing: a halt ends the process. -/
def Proc.bind {α β : Type} (m : Proc α) (f : α → Proc β) : Proc β :=
  fun w =>
    match m w with
    | .ok a w1 => f a w1
    | .halt h w1 => .halt h w1

/-- Return a value. -/
def Proc.pure {α : Type} (a : α) : Proc α := fun w => .ok a w

instance : Monad Proc where
  pure := Proc.pure
  bind := Proc.bind

/-- Record an action. -/
def emit (e : Event) : Proc Unit :=
  fun w => .ok () { w with trace := w.trace ++ [e] }

/-- Stop the process. -/
def haltWith {α : Type} (h : Halt) : Proc α := fun w => .halt h w

/-- `os.Exit(code)`. -/
def osExit {α : Type} (code : Nat) : Proc α := haltWith (.exit code)

/-- `fmt.Printf` with the text already formatted. -/
def Printf (text : String) : Proc Unit := emit (.print text)

/-- `fmt.Println`. -/
def Println (text : String) : Proc Unit := emit (.print (text ++ "\n"))

/-! ## The external calls -/

/-- Whether the host has a link of that name. -/
def hasLink (h : Host) (name : String) : Bool := h.any (fun l => decide (l.name = name))

/-- The host without the links of that name. -/
def removeLink (h : Host) (name : String) : Host := h.filter (fun l => decide (l.name ≠ name))

/-- `netlink.LinkByName`: the link of that name, `none` when the lookup
returns an error. -/
def LinkByName (name : String) : Proc (Option Link) :=
  fun w => .ok (w.host.find? (fun l => decide (l.name = name)))
    { w with trace := w.trace ++ [.linkByName name] }

/-- `netlink.LinkDel`: removes the link unless the call fails. -/
def LinkDel (env : Env) (l : Link) : Proc (Option Error) :=
  fun w =>
    let w1 := { w with trace := w.trace ++ [.linkDel l.name] }
    match env.linkDelErr with
    | some e => .ok (some e) w1
    | none =>
      if hasLink w.host l.name then .ok none { w1 with host := removeLink w.host l.name }
      else .ok (some "no such device") w1

/-- Running a command built by `exec.Command`: its combined output and its
error.  `ip link add NAME type KIND` creates a link that is down and has no
address, and fails when the name is taken; any other command is answered by
the environment. -/
def execute (env : Env) (argv : List String) : Proc (String × Option Error) :=
  fun w =>
    let w1 := { w with trace := w.trace ++ [.run argv] }
    match argv with
    | ["ip", "link", "add", name, "type", kind] =>
      match env.linkAddErr with
      | some e => .ok ("", some e) w1
      | none =>
        if hasLink w.host name then .ok ("RTNETLINK answers: File exists\n", some "exit status 2") w1
        else .ok ("", none)
          { w1 with host := w.host ++ [{ name := name, kind := kind, addrs := [], up := false }] }
    | _ => .ok (env.command argv) w1

/-- `Cmd.Run`: only the error of the command. -/
def Run (env : Env) (argv : List String) : Proc (Option Error) := do
  let r ← execute env argv
  pure r.2

/-- `Cmd.CombinedOutput`. -/
def CombinedOutput (env : Env) (argv : List String) : Proc (String × Option Error) :=
  execute env argv

/-- `netlink.AddrAdd`: dereferences the link and the address, then adds the
address to the link unless the call fails. -/
def AddrAdd (env : Env) (link : Option Link) (addr : Option Addr) : Proc (Option Error) :=
  match link, addr with
  | some l, some a =>
    fun w =>
      let w1 := { w with trace := w.trace ++ [.addrAdd l.name a] }
      match env.addrAddErr with
      | some e => .ok (some e) w1
      | none =>
        if hasLink w.host l.name then
          .ok none { w1 with host := w.host.map (fun x =>
            if x.name = l.name then { x with addrs := x.addrs ++ [a] } else x) }
        else .ok (some "no such device") w1
  | _, _ => haltWith .panic

/-- `netlink.LinkSetUp`: dereferences the link, then brings it up unless the
call fails. -/
def LinkSetUp (env : Env) (link : Option Link) : Proc (Option Error) :=
  match link with
  | some l =>
    fun w =>
      let w1 := { w with trace := w.trace ++ [.linkSetUp l.name] }
      match env.linkSetUpErr with
      | some e => .ok (some e) w1
      | none =>
        if hasLink w.host l.name then
          .ok none { w1 with host := w.host.map (fun x =>
            if x.name = l.name then { x with up := true } else x) }
        else .ok (some "no such device") w1
  | none => haltWith .panic

/-- `wgctrl.New`: the error it returns. -/
def wgctrlNew (env : Env) : Proc (Option Error) := do
  emit .wgctrlNew
  pure env.wgctrlNew

/-- `wgtypes.GeneratePrivateKey`. -/
def GeneratePrivateKey (env : Env) : Proc (Except Error Key) :=
  fun w => .ok (env.GeneratePrivateKey w.keyCalls)
    { w with trace := w.trace ++ [.generatePrivateKey], keyCalls := w.keyCalls + 1 }

/-- `net.ResolveUDPAddr`. -/
def ResolveUDPAddr (env : Env) (network address : String) : Proc (Except Error UDPAddr) := do
  emit (.resolveUDPAddr network address)
  pure (env.ResolveUDPAddr network address)

/-- `Client.ConfigureDevice`. -/
def ConfigureDevice (env : Env) (name : String) (cfg : Config) : Proc (Option Error) := do
  emit (.configureDevice name cfg)
  pure (env.ConfigureDevice name cfg)

/-- `Client.Close`. -/
def Close : Proc Unit := emit .wgctrlClose

/-- `os.Args[i]`: an index out of range is a run-time panic. -/
def osArg (osArgs : List String) (i : Nat) : Proc String :=
  match osArgs.get? i with
  | some a => Proc.pure a
  | none => haltWith .panic

/-! ## The program -/

/-- `waitForInterrupt`: register for the interrupt signal and wait; the
listener runs `f` when the signal arrives and only then releases the
waiting main flow. -/
def waitForInterrupt (env : Env) (f : Proc Unit) : Proc Unit := do
  emit .awaitInterrupt
  if env.interrupt then
    emit .interrupt
    f
  else
    haltWith .blocked

/-- `stopDockerNginx`. -/
def stopDockerNginx (env : Env) : Proc Unit := do
  let (out, err) ← CombinedOutput env ["docker", "container", "stop", "nginx"]
  match err with
  | some _ =>
    Println out
    osExit 1
  | none =>
    Println "Nginx stopped, exiting gracefully"

/-- `runDockerNginx`. -/
def runDockerNginx (env : Env) : Proc Unit := do
  let nginxCommand := ["docker", "run", "--rm", "-d", "-p",
    nginxPublishedPort ++ ":80", "--name", "nginx", "nginx"]
  Println "Starting Nginx container"
  let (out, err) ← CombinedOutput env nginxCommand
  match err with
  | some _ =>
    Println out
    osExit 1
  | none =>
    Printf ("Nginx started on " ++ nginxBindAddr ++ ":" ++ nginxPublishedPort
      ++ ", to test run on the client:\n")
    Println ("\t$ curl" ++ " " ++ nginxBindAddr ++ ":" ++ nginxPublishedPort)
    Println "Issue ^-C to tear down the setup"
    waitForInterrupt env (stopDockerNginx env)

/-- `stopDockerCurl`. -/
def stopDockerCurl (env : Env) : Proc Unit := do
  let (out, err) ← CombinedOutput env ["docker", "container", "stop", "curlContainer"]
  match err with
  | some _ =>
    Println out
    osExit 1
  | none =>
    Println "Client ubuntu image stopped, exiting gracefully"

/-- `runDockerCurl`. -/
def runDockerCurl (env : Env) : Proc Unit := do
  let clientCommand := ["docker", "run", "--rm", "-d", "-it", "--name", "curlContainer",
    "tutum/curl"]
  Println "Starting curl container"
  let (out, err) ← CombinedOutput env clientCommand
  match err with
  | some _ =>
    Println out
    osExit 1
  | none =>
    Printf "Client curl image started successfully, to test, run on other terminal:\n"
    Printf ("\t$ docker exec -it curlContainer curl " ++ nginxBindAddr ++ ":"
      ++ nginxPublishedPort ++ "\n")
    Println "Issue ^-C to tear down the setup"
    waitForInterrupt env (stopDockerCurl env)

/-- `configureWgInterfaceNetlink`. -/
def configureWgInterfaceNetlink (env : Env) (wgAddr : String) : Proc Unit := do
  let wgIf ← LinkByName wgIfName
  match wgIf with
  | some l =>
    Printf ("Interface exists: " ++ wgIfName ++ ", deleting to recreate\n")
    let _ ← LinkDel env l
  | none => pure ()
  let err ← Run env ["ip", "link", "add", wgIfName, "type", "wireguard"]
  match err with
  | some e =>
    Printf ("Error adding wireguard interface [ip link add ...]: " ++ e ++ "\n")
    osExit 1
  | none =>
    Println "Interface added"
  let wgIf ← LinkByName wgIfName
  let addr := ParseAddr wgAddr
  let _ ← AddrAdd env wgIf addr
  let _ ← LinkSetUp env wgIf

/-- `configureWgInterfaceProtocolClient`. -/
def configureWgInterfaceProtocolClient (env : Env) (serverPublicKey clientPrivateKey : Key)
    (serverPublicIP : String) : Proc Unit := do
  let err ← wgctrlNew env
  match err with
  | some e =>
    Printf ("Error creating wgctrl instance: " ++ e ++ "\n")
    osExit 1
  | none => pure ()
  match ParseCIDR peerAddrServer with
  | none =>
    Println "Can't parse server endpoint's tunnel ip address"
    osExit 1
  | some (_, ipnet) =>
    let r ← ResolveUDPAddr env "" (serverPublicIP ++ ":" ++ toString listenPort)
    match r with
    | .error e =>
      Printf ("Can't parse server endpoint's public ip address: " ++ e ++ "\n")
      osExit 1
    | .ok serverPubUDP =>
      let peerConfig : PeerConfig := {
        PublicKey := serverPublicKey,
        ReplaceAllowedIPs := true,
        AllowedIPs := [ipnet],
        Endpoint := some serverPubUDP }
      let clientConfig : Config := {
        PrivateKey := some clientPrivateKey,
        ReplacePeers := true,
        Peers := [peerConfig] }
      let err ← ConfigureDevice env wgIfName clientConfig
      match err with
      | some e =>
        Printf ("Error applying client configuariont: " ++ e ++ "\n")
        osExit 1
      | none =>
        Println "Successfully applied client endpoint configuration"

/-- `configureWgInterfaceProtocolServer`. -/
def configureWgInterfaceProtocolServer (env : Env) : Proc Unit := do
  let err ← wgctrlNew env
  match err with
  | some e =>
    Printf ("Error creating wgctrl instance: " ++ e ++ "\n")
    osExit 1
  | none => pure ()
  let r ← GeneratePrivateKey env
  match r with
  | .error e =>
    Printf ("Error generating key pair for peer: " ++ e ++ "\n")
    osExit 1
  | .ok peerPrivateKey =>
    let peerPublicKey := env.PublicKey peerPrivateKey
    match ParseCIDR peerAddrClient with
    | none =>
      Printf ("Can't parse client's tunnel ip address: invalid CIDR address: "
        ++ peerAddrClient ++ "\n")
      osExit 1
    | some (_, ipnet) =>
      let peerConfig : PeerConfig := {
        PublicKey := peerPublicKey,
        ReplaceAllowedIPs := true,
        AllowedIPs := [ipnet] }
      let r ← GeneratePrivateKey env
      match r with
      | .error e =>
        Printf ("Error generating server key pair: " ++ e ++ "\n")
        osExit 1
      | .ok serverPrivateKey =>
        let serverPublicKey := env.PublicKey serverPrivateKey
        let listenPortCopy := listenPort
        let serverConfig : Config := {
          PrivateKey := some serverPrivateKey,
          ListenPort := some listenPortCopy,
          ReplacePeers := true,
          Peers := [peerConfig] }
        let err ← ConfigureDevice env wgIfName serverConfig
        match err with
        | some e =>
          Printf ("Error applying server configuariont: " ++ e ++ "\n")
          osExit 1
        | none =>
          Println "Successfully applied server endpoint configuration"
        Println "On client, run specifying ip of server where deployment was made:"
        Printf ("\t$ ./tunnel " ++ env.KeyString serverPublicKey ++ " "
          ++ env.KeyString peerPrivateKey ++ " <public ip of server>\n")
        Close

/-- `serverEndpoint`. -/
def serverEndpoint (env : Env) : Proc Unit := do
  configureWgInterfaceNetlink env wgAddrServer
  configureWgInterfaceProtocolServer env
  runDockerNginx env

/-- `clientEndpoint`. -/
def clientEndpoint (env : Env) (serverPublicKey clientPrivateKey : Key)
    (serverPublicIP : String) : Proc Unit := do
  configureWgInterfaceNetlink env wgAddrClient
  configureWgInterfaceProtocolClient env serverPublicKey clientPrivateKey serverPublicIP
  runDockerCurl env

/-- `main`, given `os.Args` (the program name first). -/
def main (env : Env) (osArgs : List String) : Proc Unit := do
  Println "<Wireguard Tunnel>"
  if osArgs.length = 1 then
    Println "Deploying server side of the tunnel"
    serverEndpoint env
  else
    Println "Deploying client side of the tunnel"
    let a1 ← osArg osArgs 1
    match env.ParseKey a1 with
    | none =>
      Println "Invalid arguments, exiting"
      osExit 1
    | some serverPublicKey =>
      let a2 ← osArg osArgs 2
      match env.ParseKey a2 with
      | none =>
        Println "Invalid arguments, exiting"
        osExit 1
      | some clientPrivateKey =>
        let serverPublicIP ← osArg osArgs 3
        clientEndpoint env serverPublicKey clientPrivateKey serverPublicIP

/-! ## Runs of the process -/

/-- The world a process starts in. -/
def World.start (host : Host) : World := { host := host, trace := [], keyCalls := 0 }

/-- What is observed of a piece of the program run from a world: how it
halted (`none` when it returned), the actions recorded so far and the host
it leaves. -/
structure Outcome where
  halted : Option Halt
  trace : List Event
  host : Host
  deriving DecidableEq, Repr

/-- Observation of a step. -/
def Step.outcome {α : Type} : Step α → Outcome
  | .ok _ w => { halted := none, trace := w.trace, host := w.host }
  | .halt h w => { halted := some h, trace := w.trace, host := w.host }

/-- Run the whole program on a host with the given `os.Args`. -/
def runMain (env : Env) (host : Host) (osArgs : List String) : Outcome :=
  (main env osArgs (World.start host)).outcome

/-- Exit status of the process: 0 when `main` returns, the argument of
`os.Exit`, 2 after a run-time panic, none while it blocks. -/
def Outcome.exitStatus (o : Outcome) : Option Nat :=
  match o.halted with
  | none => some 0
  | some (.exit c) => some c
  | some .panic => some 2
  | some .blocked => none

/-! ## A sample environment -/

/-- Stand-in for the Curve25519 public key of a private key in the sample
environment; the theorems hold for every `Env.PublicKey`. -/
def samplePublicKey (k : Key) : Key := ⟨k.bytes.map (fun b => (b * 7 + 9) % 256)⟩

/-- Resolution of a literal `a.b.c.d:port`. -/
def resolveLiteral (address : String) : Except Error UDPAddr :=
  match cutAt ':' address.data with
  | some (host, port) =>
    match parseIPv4 host, parseDigits port 0 with
    | some ip, some p => if port ≠ [] ∧ p < 65536 then .ok { ip := ip, port := p }
      else .error "invalid port"
    | _, _ => .error "no such host"
  | none => .error "missing port in address"

/-- An environment in which every external call succeeds and an interrupt
arrives: base64 key text, generated keys with all bytes equal, literal
addresses. -/
def sampleEnv : Env where
  ParseKey := parseKeyBase64
  KeyString := keyStringBase64
  PublicKey := samplePublicKey
  GeneratePrivateKey := fun n => .ok ⟨List.replicate 32 (n + 1)⟩
  ResolveUDPAddr := fun _ address => resolveLiteral address
  wgctrlNew := none
  ConfigureDevice := fun _ _ => none
  linkDelErr := none
  linkAddErr := none
  addrAddErr := none
  linkSetUpErr := none
  command := fun _ => ("", none)
  interrupt := true

/-- The sample environment, except that `netlink.AddrAdd` returns an error. -/
def assignFailsEnv : Env := { sampleEnv with addrAddErr := some "no buffer space available" }

/-- The sample environment, except that `netlink.LinkSetUp` returns an error. -/
def linkUpFailsEnv : Env := { sampleEnv with linkSetUpErr := some "no buffer space available" }

/-- The sample environment, except that `netlink.LinkDel` returns an error,
as for a link the host cannot delete. -/
def deleteFailsEnv : Env := { sampleEnv with linkDelErr := some "operation not supported" }

/-- The sample environment, except that stopping a container fails. -/
def stopFailsEnv : Env :=
  { sampleEnv with
    command := fun argv =>
      match argv with
      | ["docker", "container", "stop", name] =>
        ("Error response from daemon: No such container: " ++ name ++ "\n", some "exit status 1")
      | _ => ("", none) }

/-- Text of the sample public key of the private key with all bytes 2. -/
def sampleServerPublicText : String := "FxcXFxcXFxcXFxcXFxcXFxcXFxcXFxcXFxcXFxcXFxc="

/-- Text of the private key with all bytes 1. -/
def samplePeerPrivateText : String := "AQEBAQEBAQEBAQEBAQEBAQEBAQEBAQEBAQEBAQEBAQE="

/-! ## Observations on runs -/

/-- The world a step ends in. -/
def Step.world {α : Type} : Step α → World
  | .ok _ w => w
  | .halt _ w => w

/-- The device configurations applied in a trace, in order. -/
def configured : List Event → List (String × Config)
  | [] => []
  | .configureDevice name cfg :: es => (name, cfg) :: configured es
  | _ :: es => configured es

/-- Whether an event applies a device configuration. -/
def Event.isConfigure : Event → Bool
  | .configureDevice _ _ => true
  | _ => false

/-- Whether an event only writes to the console. -/
def Event.isPrint : Event → Bool
  | .print _ => true
  | _ => false

/-- The process only adds events satisfying `A` to the trace, whether it
returns or halts. -/
def Emits {α : Type} (A : Event → Prop) (m : Proc α) : Prop :=
  ∀ w, ∃ evs, (m w).world.trace = w.trace ++ evs ∧ ∀ e ∈ evs, A e

/-- The process applies no device configuration. -/
def Quiet {α : Type} (m : Proc α) : Prop := Emits (fun e => e.isConfigure = false) m

/-- The process never halts with `os.Exit(0)`, and `G` holds of the world
it returns in. -/
def Final {α : Type} (G : World → Prop) (m : Proc α) : Prop :=
  ∀ w, match m w with
    | .ok _ w2 => G w2
    | .halt h _ => h ≠ .exit 0

/-- A stop command of the workload ran in the trace and, by the
environment, returned no error. -/
def StoppedCleanly (env : Env) (trace : List Event) : Prop :=
  (Event.run ["docker", "container", "stop", "nginx"] ∈ trace
      ∧ (env.command ["docker", "container", "stop", "nginx"]).2 = none)
    ∨ (Event.run ["docker", "container", "stop", "curlContainer"] ∈ trace
      ∧ (env.command ["docker", "container", "stop", "curlContainer"]).2 = none)

/-- The link `ip link add` creates. -/
def freshLink : Link := { name := wgIfName, kind := "wireguard", addrs := [], up := false }

/-- Halt and host the provisioner leaves on a host `h` without the tunnel
link, by the answers of the environment. -/
def provisionResult (env : Env) (h : Host) (wgAddr : String) : Option Halt × Host :=
  match env.linkAddErr with
  | some _ => (some (.exit 1), h)
  | none =>
    match ParseAddr wgAddr with
    | none => (some .panic, h ++ [freshLink])
    | some a =>
      (none, h ++ [{ freshLink with
          addrs := if env.addrAddErr = none then [a] else [],
          up := decide (env.linkSetUpErr = none) }])

/-! ## Facts about the library models and the host -/

theorem parseCIDR_peerAddrClient :
    ParseCIDR peerAddrClient = some ([10, 0, 0, 2], { ip := [10, 0, 0, 2], ones := 32 }) := by
  decide

theorem parseCIDR_peerAddrServer :
    ParseCIDR peerAddrServer = some ([10, 0, 0, 1], { ip := [10, 0, 0, 1], ones := 32 }) := by
  decide

theorem endpoint_text (A : String) : A ++ ":" ++ toString listenPort = A ++ ":51820" := by
  have h : toString listenPort = "51820" := by decide
  rw [h, String.append_assoc]
  rfl

theorem configured_append (xs ys : List Event) :
    configured (xs ++ ys) = configured xs ++ configured ys := by
  induction xs with
  | nil => rfl
  | cons e es ih => cases e <;> simp [configured, ih]

theorem outcome_trace {α : Type} (s : Step α) : s.outcome.trace = s.world.trace := by
  cases s <;> rfl

theorem hasLink_removeLink (h : Host) (n : String) : hasLink (removeLink h n) n = false := by
  simp [hasLink, removeLink]

theorem removeLink_of_not_hasLink (h : Host) (n : String) (hn : hasLink h n = false) :
    removeLink h n = h := by
  simp only [hasLink, List.any_eq_false, decide_eq_true_eq] at hn
  simp only [removeLink, List.filter_eq_self, decide_eq_true_eq]
  exact hn

theorem removeLink_append_single (h : Host) (n : String) (l : Link) (hl : l.name = n) :
    removeLink (h ++ [l]) n = removeLink h n := by
  simp [removeLink, List.filter_append, hl]

theorem hasLink_append_single (h : Host) (n : String) (l : Link) (hl : l.name = n) :
    hasLink (h ++ [l]) n = true := by
  simp [hasLink, hl]

theorem find_append_single (h : Host) (n : String) (l : Link) (hl : l.name = n)
    (hn : hasLink h n = false) :
    (h ++ [l]).find? (fun x => decide (x.name = n)) = some l := by
  simp only [hasLink, List.any_eq_false, decide_eq_true_eq] at hn
  rw [List.find?_append]
  have : h.find? (fun x => decide (x.name = n)) = none := by
    simp only [List.find?_eq_none, decide_eq_true_eq]
    exact hn
  simp [this, hl]

theorem map_update_append_single (h : Host) (n : String) (l : Link) (f : Link → Link)
    (hl : l.name = n) (hn : hasLink h n = false) :
    (h ++ [l]).map (fun x => if x.name = n then f x else x) = h ++ [f l] := by
  simp only [hasLink, List.any_eq_false, decide_eq_true_eq] at hn
  rw [List.map_append]
  congr 1
  · conv_rhs => rw [← List.map_id h]
    apply List.map_congr_left
    intro x hx
    simp [hn x hx]
  · simp [hl]

theorem find_of_hasLink (h : Host) (n : String) (hn : hasLink h n = true) :
    ∃ l, h.find? (fun x => decide (x.name = n)) = some l ∧ l.name = n := by
  cases hf : h.find? (fun x => decide (x.name = n)) with
  | none =>
    simp only [List.find?_eq_none, decide_eq_true_eq] at hf
    simp only [hasLink, List.any_eq_true, decide_eq_true_eq] at hn
    obtain ⟨x, hx, hxn⟩ := hn
    exact absurd hxn (hf x hx)
  | some l =>
    have := List.find?_some hf
    exact ⟨l, rfl, by simpa using this⟩

theorem find_of_not_hasLink (h : Host) (n : String) (hn : hasLink h n = false) :
    h.find? (fun x => decide (x.name = n)) = none := by
  simp only [hasLink, List.any_eq_false, decide_eq_true_eq] at hn
  simp only [List.find?_eq_none, decide_eq_true_eq]
  exact hn

/-! ## The provisioner on a host without and with the tunnel link -/

theorem provision_fresh (env : Env) (w : World) (wgAddr : String)
    (hn : hasLink w.host wgIfName = false) :
    ((configureWgInterfaceNetlink env wgAddr w).outcome.halted,
     (configureWgInterfaceNetlink env wgAddr w).outcome.host) =
      provisionResult env w.host wgAddr := by
  have hf := find_of_not_hasLink _ _ hn
  have hfind := fun l hl => find_append_single w.host wgIfName l hl hn
  have hhas := fun l hl => hasLink_append_single w.host wgIfName l hl
  have hmap := fun l f hl => map_update_append_single w.host wgIfName l f hl hn
  simp only [wgIfName] at hf hfind hhas hn hmap
  cases hadd : env.linkAddErr with
  | some e =>
    simp [configureWgInterfaceNetlink, bind, Proc.bind, LinkByName, hf, pure, Proc.pure, Run, execute,
      hadd, Printf, emit, osExit, haltWith, Step.outcome, wgIfName, provisionResult]
  | none =>
    cases hp : ParseAddr wgAddr with
    | none =>
      simp [configureWgInterfaceNetlink, bind, Proc.bind, LinkByName, hf, pure, Proc.pure, Run, execute,
        hadd, Printf, Println, emit, osExit, haltWith, Step.outcome, wgIfName, hn, hfind, hp, AddrAdd,
        freshLink, provisionResult]
    | some a =>
      cases haa : env.addrAddErr <;> cases hup : env.linkSetUpErr <;>
      simp [configureWgInterfaceNetlink, bind, Proc.bind, LinkByName, hf, pure, Proc.pure, Run, execute,
        hadd, Printf, Println, emit, osExit, haltWith, Step.outcome, wgIfName, hn, hfind, hp, AddrAdd,
        freshLink, LinkSetUp, haa, hup, hhas, hmap, provisionResult]

theorem provision_existing (env : Env) (w : World) (wgAddr : String)
    (hn : hasLink w.host wgIfName = true) (hdel : env.linkDelErr = none) :
    ((configureWgInterfaceNetlink env wgAddr w).outcome.halted,
     (configureWgInterfaceNetlink env wgAddr w).outcome.host) =
      provisionResult env (removeLink w.host wgIfName) wgAddr := by
  obtain ⟨l0, hf, hl0⟩ := find_of_hasLink _ _ hn
  have hn0 := hasLink_removeLink w.host wgIfName
  have hfind := fun l hl => find_append_single (removeLink w.host wgIfName) wgIfName l hl hn0
  have hhas := fun l hl => hasLink_append_single (removeLink w.host wgIfName) wgIfName l hl
  have hmap := fun l f hl =>
    map_update_append_single (removeLink w.host wgIfName) wgIfName l f hl hn0
  simp only [wgIfName] at hf hfind hhas hn hmap hn0 hl0
  cases hadd : env.linkAddErr with
  | some e =>
    simp [configureWgInterfaceNetlink, bind, Proc.bind, LinkByName, hf, pure, Proc.pure, Run, execute,
      hadd, Printf, emit, osExit, haltWith, Step.outcome, wgIfName, provisionResult, LinkDel, hdel,
      hl0, hn]
  | none =>
    cases hp : ParseAddr wgAddr with
    | none =>
      simp [configureWgInterfaceNetlink, bind, Proc.bind, LinkByName, hf, pure, Proc.pure, Run, execute,
        hadd, Printf, Println, emit, osExit, haltWith, Step.outcome, wgIfName, hn, hfind, hp, AddrAdd,
        freshLink, provisionResult, LinkDel, hdel, hl0, hn0]
    | some a =>
      cases haa : env.addrAddErr <;> cases hup : env.linkSetUpErr <;>
      simp [configureWgInterfaceNetlink, bind, Proc.bind, LinkByName, hf, pure, Proc.pure, Run, execute,
        hadd, Printf, Println, emit, osExit, haltWith, Step.outcome, wgIfName, hn, hfind, hp, AddrAdd,
        freshLink, LinkSetUp, haa, hup, hhas, hmap, provisionResult, LinkDel, hdel, hl0, hn0]

/-- With the delete carried out, the provisioner starts by looking the link
up, announcing and deleting it, and only then runs the create command. -/
theorem provision_existing_trace (env : Env) (w : World) (wgAddr : String)
    (hn : hasLink w.host wgIfName = true) (hdel : env.linkDelErr = none) :
    (w.trace ++ [.linkByName wgIfName,
        .print "Interface exists: wg-tunnel, deleting to recreate\n",
        .linkDel wgIfName,
        .run ["ip", "link", "add", wgIfName, "type", "wireguard"]])
      <+: (configureWgInterfaceNetlink env wgAddr w).outcome.trace := by
  obtain ⟨l0, hf, hl0⟩ := find_of_hasLink _ _ hn
  have hn0 := hasLink_removeLink w.host wgIfName
  have hfind := fun l hl => find_append_single (removeLink w.host wgIfName) wgIfName l hl hn0
  have hhas := fun l hl => hasLink_append_single (removeLink w.host wgIfName) wgIfName l hl
  have hmap := fun l f hl =>
    map_update_append_single (removeLink w.host wgIfName) wgIfName l f hl hn0
  simp only [wgIfName] at hf hfind hhas hn hmap hn0 hl0
  cases hadd : env.linkAddErr with
  | some e =>
    simp [configureWgInterfaceNetlink, bind, Proc.bind, LinkByName, hf, pure, Proc.pure, Run, execute,
      hadd, Printf, emit, osExit, haltWith, Step.outcome, wgIfName, LinkDel, hdel, hl0, hn]
  | none =>
    cases hp : ParseAddr wgAddr with
    | none =>
      simp [configureWgInterfaceNetlink, bind, Proc.bind, LinkByName, hf, pure, Proc.pure, Run, execute,
        hadd, Printf, Println, emit, osExit, haltWith, Step.outcome, wgIfName, hn, hfind, hp, AddrAdd,
        freshLink, LinkDel, hdel, hl0, hn0]
    | some a =>
      cases haa : env.addrAddErr <;> cases hup : env.linkSetUpErr <;>
      simp [configureWgInterfaceNetlink, bind, Proc.bind, LinkByName, hf, pure, Proc.pure, Run, execute,
        hadd, Printf, Println, emit, osExit, haltWith, Step.outcome, wgIfName, hn, hfind, hp, AddrAdd,
        freshLink, LinkSetUp, haa, hup, hhas, hmap, LinkDel, hdel, hl0, hn0]

/-! ## Which events a piece of the program can add -/

theorem emits_pure {α : Type} (A : Event → Prop) (a : α) : Emits A (pure a : Proc α) :=
  fun w => ⟨[], by simp [pure, Proc.pure, Step.world], by simp⟩

theorem emits_halt {α : Type} (A : Event → Prop) (h : Halt) : Emits A (haltWith h : Proc α) :=
  fun w => ⟨[], by simp [haltWith, Step.world], by simp⟩

theorem emits_bind {α β : Type} {A : Event → Prop} {m : Proc α} {f : α → Proc β}
    (hm : Emits A m) (hf : ∀ a, Emits A (f a)) : Emits A (m >>= f) := by
  intro w
  obtain ⟨evs, h1, h2⟩ := hm w
  cases hmw : m w with
  | halt h w1 =>
    refine ⟨evs, ?_, h2⟩
    simpa [bind, Proc.bind, hmw, Step.world] using h1
  | ok a w1 =>
    obtain ⟨evs2, h3, h4⟩ := hf a w1
    refine ⟨evs ++ evs2, ?_, ?_⟩
    · simp only [hmw, Step.world] at h1
      simp [bind, Proc.bind, hmw, h3, h1]
    · intro e he
      rcases List.mem_append.1 he with h | h
      · exact h2 e h
      · exact h4 e h

theorem emits_emit {A : Event → Prop} {e : Event} (h : A e) : Emits A (emit e) :=
  fun w => ⟨[e], by simp [emit, Step.world], by simpa using h⟩

theorem emits_of_quiet {α : Type} {A : Event → Prop} (hA : ∀ e, e.isConfigure = false → A e)
    {m : Proc α} (hm : Quiet m) : Emits A m := by
  intro w
  obtain ⟨evs, h1, h2⟩ := hm w
  exact ⟨evs, h1, fun e he => hA e (h2 e he)⟩

theorem emits_trace_mem {α : Type} {A : Event → Prop} {m : Proc α} (hm : Emits A m) (w : World)
    (hw : ∀ e ∈ w.trace, A e) : ∀ e ∈ (m w).outcome.trace, A e := by
  obtain ⟨evs, h1, h2⟩ := hm w
  intro e he
  rw [outcome_trace, h1] at he
  rcases List.mem_append.1 he with h | h
  · exact hw e h
  · exact h2 e h

theorem quiet_configured {α : Type} {m : Proc α} (hm : Quiet m) (w : World) :
    configured (m w).world.trace = configured w.trace := by
  obtain ⟨evs, h1, h2⟩ := hm w
  rw [h1, configured_append]
  have : configured evs = [] := by
    clear h1
    induction evs with
    | nil => rfl
    | cons e es ih =>
      have he := h2 e (by simp)
      have hes := ih (fun x hx => h2 x (by simp [hx]))
      cases e <;> simp_all [configured, Event.isConfigure]
  simp [this]

theorem quiet_LinkByName (n : String) : Quiet (LinkByName n) :=
  fun w => ⟨[.linkByName n], by simp [LinkByName, Step.world], by simp [Event.isConfigure]⟩

theorem quiet_LinkDel (env : Env) (l : Link) : Quiet (LinkDel env l) := by
  intro w
  refine ⟨[.linkDel l.name], ?_, by simp [Event.isConfigure]⟩
  simp only [LinkDel]
  split
  · rfl
  · split <;> rfl

theorem quiet_execute (env : Env) (argv : List String) : Quiet (execute env argv) := by
  intro w
  refine ⟨[.run argv], ?_, by simp [Event.isConfigure]⟩
  simp only [execute]
  split
  · split
    · rfl
    · split <;> rfl
  · rfl

theorem quiet_AddrAdd (env : Env) (l : Option Link) (a : Option Addr) :
    Quiet (AddrAdd env l a) := by
  unfold AddrAdd
  split
  · intro w
    rename_i l a
    refine ⟨[.addrAdd l.name a], ?_, by simp [Event.isConfigure]⟩
    dsimp only
    split
    · rfl
    · split <;> rfl
  · exact emits_halt _ _

theorem quiet_LinkSetUp (env : Env) (l : Option Link) : Quiet (LinkSetUp env l) := by
  unfold LinkSetUp
  split
  · intro w
    rename_i l
    refine ⟨[.linkSetUp l.name], ?_, by simp [Event.isConfigure]⟩
    dsimp only
    split
    · rfl
    · split <;> rfl
  · exact emits_halt _ _

theorem quiet_Printf (t : String) : Quiet (Printf t) := emits_emit (by simp [Event.isConfigure])

theorem quiet_Println (t : String) : Quiet (Println t) := emits_emit (by simp [Event.isConfigure])

theorem quiet_osArg (osArgs : List String) (i : Nat) : Quiet (osArg osArgs i) := by
  unfold osArg
  split
  · exact emits_pure _ _
  · exact emits_halt _ _

theorem quiet_provision (env : Env) (wgAddr : String) :
    Quiet (configureWgInterfaceNetlink env wgAddr) := by
  unfold configureWgInterfaceNetlink Run
  repeat' first
    | exact quiet_LinkByName _
    | exact quiet_LinkDel _ _
    | exact quiet_execute _ _
    | exact quiet_AddrAdd _ _ _
    | exact quiet_LinkSetUp _ _
    | exact quiet_Printf _
    | exact quiet_Println _
    | exact emits_pure _ _
    | exact emits_halt _ _
    | apply emits_bind
    | split
    | intro _

theorem quiet_runDockerCurl (env : Env) : Quiet (runDockerCurl env) := by
  unfold runDockerCurl waitForInterrupt stopDockerCurl CombinedOutput
  repeat' first
    | exact quiet_execute _ _
    | exact quiet_Printf _
    | exact quiet_Println _
    | exact emits_pure _ _
    | exact emits_halt _ _
    | exact emits_emit (by simp [Event.isConfigure])
    | apply emits_bind
    | split
    | intro _

/-- Every configuration the client configurator applies has the given
private key and the given key as the public key of its only peer. -/
theorem emits_client_config (env : Env) (K P : Key) (A : String) :
    Emits (fun e => ∀ name cfg, e = .configureDevice name cfg →
        cfg.PrivateKey = some P ∧ cfg.Peers.map (fun p => p.PublicKey) = [K])
      (configureWgInterfaceProtocolClient env K P A) := by
  have hq : ∀ e : Event, e.isConfigure = false → ∀ name cfg, e = .configureDevice name cfg →
      cfg.PrivateKey = some P ∧ cfg.Peers.map (fun p => p.PublicKey) = [K] := by
    intro e he name cfg h
    subst h
    simp [Event.isConfigure] at he
  unfold configureWgInterfaceProtocolClient wgctrlNew ResolveUDPAddr ConfigureDevice
  repeat' first
    | exact emits_of_quiet hq (quiet_Printf _)
    | exact emits_of_quiet hq (quiet_Println _)
    | exact emits_pure _ _
    | exact emits_halt _ _
    | exact emits_emit (by intro name cfg h; cases h <;> simp)
    | apply emits_bind
    | split
    | intro _

theorem configured_bind_quiet {α β : Type} (m : Proc α) (f : α → Proc β)
    (hf : ∀ a, Quiet (f a)) (w : World) :
    configured ((m >>= f) w).world.trace = configured (m w).world.trace := by
  cases hmw : m w with
  | halt h w1 => simp [bind, Proc.bind, hmw, Step.world]
  | ok a w1 =>
    have := quiet_configured (hf a) w1
    simpa [bind, Proc.bind, hmw, Step.world] using this

/-! ## How the process can end -/

theorem final_bind {α β : Type} {G : World → Prop} {m : Proc α} {f : α → Proc β}
    (hm : Final (fun _ => True) m) (hf : ∀ a, Final G (f a)) : Final G (m >>= f) := by
  intro w
  have h1 := hm w
  cases hmw : m w with
  | halt h w1 =>
    rw [hmw] at h1
    simpa [bind, Proc.bind, hmw] using h1
  | ok a w1 =>
    have h2 := hf a w1
    simpa [bind, Proc.bind, hmw] using h2

theorem final_pure {α : Type} (a : α) : Final (fun _ => True) (pure a : Proc α) := by
  intro w
  simp [pure, Proc.pure]

theorem final_halt {α : Type} (G : World → Prop) (h : Halt) (hh : h ≠ .exit 0) :
    Final G (haltWith h : Proc α) := by
  intro w
  simpa [haltWith] using hh

theorem final_emit (e : Event) : Final (fun _ => True) (emit e) := by
  intro w
  simp [emit]

theorem final_LinkByName (n : String) : Final (fun _ => True) (LinkByName n) := by
  intro w
  simp [LinkByName]

theorem final_of_ok {α : Type} {m : Proc α} (hm : ∀ w, ∃ a w2, m w = .ok a w2) :
    Final (fun _ => True) m := by
  intro w
  obtain ⟨a, w2, h⟩ := hm w
  simp [h]

theorem final_LinkDel (env : Env) (l : Link) : Final (fun _ => True) (LinkDel env l) := by
  apply final_of_ok
  intro w
  simp only [LinkDel]
  split
  · exact ⟨_, _, rfl⟩
  · split <;> exact ⟨_, _, rfl⟩

theorem final_execute (env : Env) (argv : List String) :
    Final (fun _ => True) (execute env argv) := by
  apply final_of_ok
  intro w
  simp only [execute]
  split
  · split
    · exact ⟨_, _, rfl⟩
    · split <;> exact ⟨_, _, rfl⟩
  · exact ⟨_, _, rfl⟩

theorem final_AddrAdd (env : Env) (l : Option Link) (a : Option Addr) :
    Final (fun _ => True) (AddrAdd env l a) := by
  unfold AddrAdd
  split
  · apply final_of_ok
    intro w
    dsimp only
    split
    · exact ⟨_, _, rfl⟩
    · split <;> exact ⟨_, _, rfl⟩
  · exact final_halt _ _ (by simp)

theorem final_LinkSetUp (env : Env) (l : Option Link) :
    Final (fun _ => True) (LinkSetUp env l) := by
  unfold LinkSetUp
  split
  · apply final_of_ok
    intro w
    dsimp only
    split
    · exact ⟨_, _, rfl⟩
    · split <;> exact ⟨_, _, rfl⟩
  · exact final_halt _ _ (by simp)

theorem final_GeneratePrivateKey (env : Env) :
    Final (fun _ => True) (GeneratePrivateKey env) := by
  intro w
  simp [GeneratePrivateKey]

theorem final_osArg (osArgs : List String) (i : Nat) :
    Final (fun _ => True) (osArg osArgs i) := by
  unfold osArg
  split
  · exact final_pure _
  · exact final_halt _ _ (by simp)

theorem final_provision (env : Env) (wgAddr : String) :
    Final (fun _ => True) (configureWgInterfaceNetlink env wgAddr) := by
  unfold configureWgInterfaceNetlink Run Printf Println osExit
  repeat' first
    | exact final_LinkByName _
    | exact final_LinkDel _ _
    | exact final_execute _ _
    | exact final_AddrAdd _ _ _
    | exact final_LinkSetUp _ _
    | exact final_emit _
    | exact final_pure _
    | exact final_halt _ _ (by simp)
    | apply final_bind
    | split
    | intro _

theorem final_server_config (env : Env) :
    Final (fun _ => True) (configureWgInterfaceProtocolServer env) := by
  unfold configureWgInterfaceProtocolServer wgctrlNew ConfigureDevice Close Printf Println osExit
  repeat' first
    | exact final_GeneratePrivateKey _
    | exact final_emit _
    | exact final_pure _
    | exact final_halt _ _ (by simp)
    | apply final_bind
    | split
    | intro _

theorem final_client_config (env : Env) (K P : Key) (A : String) :
    Final (fun _ => True) (configureWgInterfaceProtocolClient env K P A) := by
  unfold configureWgInterfaceProtocolClient wgctrlNew ResolveUDPAddr ConfigureDevice Printf Println
    osExit
  repeat' first
    | exact final_emit _
    | exact final_pure _
    | exact final_halt _ _ (by simp)
    | apply final_bind
    | split
    | intro _

theorem final_runDockerNginx (env : Env) :
    Final (fun w => StoppedCleanly env w.trace) (runDockerNginx env) := by
  intro w
  rcases hrun : env.command ["docker", "run", "--rm", "-d", "-p", "8080:80", "--name", "nginx",
    "nginx"] with ⟨out, err⟩
  rcases hstop : env.command ["docker", "container", "stop", "nginx"] with ⟨out2, err2⟩
  cases err <;> cases hint : env.interrupt <;> cases err2 <;>
    simp [runDockerNginx, stopDockerNginx, waitForInterrupt, CombinedOutput, execute, bind, Proc.bind,
      Println, Printf, emit, osExit, haltWith, nginxPublishedPort, hrun, hstop, hint,
      StoppedCleanly]

theorem final_runDockerCurl (env : Env) :
    Final (fun w => StoppedCleanly env w.trace) (runDockerCurl env) := by
  intro w
  rcases hrun : env.command ["docker", "run", "--rm", "-d", "-it", "--name", "curlContainer",
    "tutum/curl"] with ⟨out, err⟩
  rcases hstop : env.command ["docker", "container", "stop", "curlContainer"] with ⟨out2, err2⟩
  cases err <;> cases hint : env.interrupt <;> cases err2 <;>
    simp [runDockerCurl, stopDockerCurl, waitForInterrupt, CombinedOutput, execute, bind, Proc.bind,
      Println, Printf, emit, osExit, haltWith, hrun, hstop, hint, StoppedCleanly]

theorem final_main (env : Env) (osArgs : List String) :
    Final (fun w => StoppedCleanly env w.trace) (main env osArgs) := by
  unfold main serverEndpoint clientEndpoint Println osExit
  repeat' first
    | exact final_runDockerNginx _
    | exact final_runDockerCurl _
    | exact final_provision _ _
    | exact final_server_config _
    | exact final_client_config _ _ _ _
    | exact final_osArg _ _
    | exact final_emit _
    | exact final_halt _ _ (by simp)
    | apply final_bind
    | split
    | intro _

/-! ## Shared facts about the configurators and `main` -/

theorem mem_configured (name : String) (cfg : Config) (t : List Event) :
    (name, cfg) ∈ configured t ↔ Event.configureDevice name cfg ∈ t := by
  induction t with
  | nil => simp [configured]
  | cons e es ih => cases e <;> simp [configured, ih]

theorem server_configured (env : Env) (w : World) (P S : Key)
    (hnew : env.wgctrlNew = none)
    (hP : env.GeneratePrivateKey w.keyCalls = .ok P)
    (hS : env.GeneratePrivateKey (w.keyCalls + 1) = .ok S) :
    configured (configureWgInterfaceProtocolServer env w).outcome.trace
      = configured w.trace ++ [("wg-tunnel",
          { PrivateKey := some S, ListenPort := some 51820, ReplacePeers := true,
            Peers := [{ PublicKey := env.PublicKey P, ReplaceAllowedIPs := true,
                        AllowedIPs := [{ ip := [10, 0, 0, 2], ones := 32 }] }] })] := by
  simp only [configureWgInterfaceProtocolServer, bind, Proc.bind, wgctrlNew, emit, pure, Proc.pure,
    hnew, GeneratePrivateKey, hP, hS, parseCIDR_peerAddrClient, ConfigureDevice]
  cases hc : env.ConfigureDevice wgIfName _ <;>
    simp [hc, Step.outcome, configured_append, configured, Printf, Println, emit, osExit, haltWith,
      Close, wgIfName, listenPort, bind, Proc.bind]

theorem client_configured (env : Env) (w : World) (K P : Key) (A : String) (E : UDPAddr)
    (hres : env.ResolveUDPAddr "" (A ++ ":51820") = .ok E) :
    configured (configureWgInterfaceProtocolClient env K P A w).outcome.trace
      = configured w.trace ++
        (if env.wgctrlNew = none then
          [("wg-tunnel",
            { PrivateKey := some P, ListenPort := none, ReplacePeers := true,
              Peers := [{ PublicKey := K, ReplaceAllowedIPs := true,
                          AllowedIPs := [{ ip := [10, 0, 0, 1], ones := 32 }],
                          Endpoint := some E }] })]
         else []) := by
  cases hnew : env.wgctrlNew with
  | some e =>
    simp [configureWgInterfaceProtocolClient, bind, Proc.bind, wgctrlNew, emit, pure, Proc.pure,
      hnew, Printf, osExit, haltWith, Step.outcome, configured_append, configured]
  | none =>
    simp only [configureWgInterfaceProtocolClient, bind, Proc.bind, wgctrlNew, emit, pure,
      Proc.pure, hnew, parseCIDR_peerAddrServer, ResolveUDPAddr, endpoint_text, hres,
      ConfigureDevice]
    cases hc : env.ConfigureDevice wgIfName _ <;>
      simp [hc, Step.outcome, configured_append, configured, Printf, Println, emit, osExit,
        haltWith, wgIfName, bind, Proc.bind]

theorem main_server_eq (env : Env) (host : Host) (prog : String) :
    runMain env host [prog] =
      (serverEndpoint env
        { host := host,
          trace := [.print "<Wireguard Tunnel>\n", .print "Deploying server side of the tunnel\n"],
          keyCalls := 0 }).outcome := by
  simp [runMain, main, bind, Proc.bind, Println, emit, World.start]

theorem main_client_eq (env : Env) (host : Host) (prog k1 k2 addr : String) (rest : List String)
    (K P : Key) (h1 : env.ParseKey k1 = some K) (h2 : env.ParseKey k2 = some P) :
    runMain env host (prog :: k1 :: k2 :: addr :: rest) =
      (clientEndpoint env K P addr
        { host := host,
          trace := [.print "<Wireguard Tunnel>\n", .print "Deploying client side of the tunnel\n"],
          keyCalls := 0 }).outcome := by
  simp [runMain, main, bind, Proc.bind, Println, emit, osArg, Proc.pure, h1, h2, World.start]

theorem emits_clientEndpoint (env : Env) (K P : Key) (A : String) :
    Emits (fun e => ∀ name cfg, e = .configureDevice name cfg →
        cfg.PrivateKey = some P ∧ cfg.Peers.map (fun p => p.PublicKey) = [K])
      (clientEndpoint env K P A) := by
  have hq : ∀ e : Event, e.isConfigure = false → ∀ name cfg, e = .configureDevice name cfg →
      cfg.PrivateKey = some P ∧ cfg.Peers.map (fun p => p.PublicKey) = [K] := by
    intro e he name cfg h
    subst h
    simp [Event.isConfigure] at he
  unfold clientEndpoint
  apply emits_bind (emits_of_quiet hq (quiet_provision _ _))
  intro _
  apply emits_bind (emits_client_config _ _ _ _)
  intro _
  exact emits_of_quiet hq (quiet_runDockerCurl _)

theorem clientEndpoint_configured (env : Env) (w : World) (K P : Key) (A : String) (E : UDPAddr)
    (hprov : (configureWgInterfaceNetlink env wgAddrClient w).outcome.halted = none)
    (hnew : env.wgctrlNew = none)
    (hres : env.ResolveUDPAddr "" (A ++ ":51820") = .ok E) :
    (configured (clientEndpoint env K P A w).outcome.trace).length
      = (configured w.trace).length + 1 := by
  cases hp : configureWgInterfaceNetlink env wgAddrClient w with
  | halt h w2 => simp [hp, Step.outcome] at hprov
  | ok u w2 =>
    have hq := quiet_configured (quiet_provision env wgAddrClient) w
    simp only [hp, Step.world] at hq
    have hc := client_configured env w2 K P A E hres
    rw [hnew, outcome_trace] at hc
    have hb := configured_bind_quiet (configureWgInterfaceProtocolClient env K P A)
      (fun _ => runDockerCurl env) (fun _ => quiet_runDockerCurl env) w2
    have hrun : clientEndpoint env K P A w
        = (configureWgInterfaceProtocolClient env K P A >>= fun _ => runDockerCurl env) w2 := by
      simp [clientEndpoint, bind, Proc.bind, hp]
    rw [outcome_trace, hrun, hb, hc, hq]
    simp

/-! ## The claims -/

/-- C1: in a server bootstrap in which `wgctrl.New` and both key generations
succeed (the peer key `P` first, the server key `S` second),
`configureWgInterfaceProtocolServer` applies exactly one device
configuration, to `wg-tunnel`: private key `S`, listen port 51820,
replace-peers set, and one peer with the public key of `P`,
replace-allowed-IPs set, allowed IPs `[10.0.0.2/32]` and no endpoint (every
other field has its zero value). -/
theorem server_device_config (env : Env) (w : World) (P S : Key)
    (hnew : env.wgctrlNew = none)
    (hP : env.GeneratePrivateKey w.keyCalls = .ok P)
    (hS : env.GeneratePrivateKey (w.keyCalls + 1) = .ok S) :
    configured (configureWgInterfaceProtocolServer env w).outcome.trace
      = configured w.trace ++ [("wg-tunnel",
          { PrivateKey := some S, ListenPort := some 51820, FirewallMark := none,
            ReplacePeers := true,
            Peers := [{ PublicKey := env.PublicKey P, Remove := false, UpdateOnly := false,
                        PresharedKey := none, Endpoint := none,
                        PersistentKeepaliveInterval := none, ReplaceAllowedIPs := true,
                        AllowedIPs := [{ ip := [10, 0, 0, 2], ones := 32 }] }] })] :=
  server_configured env w P S hnew hP hS

theorem server_device_config_witness :
    sampleEnv.wgctrlNew = none
    ∧ sampleEnv.GeneratePrivateKey 0 = .ok ⟨List.replicate 32 1⟩
    ∧ sampleEnv.GeneratePrivateKey 1 = .ok ⟨List.replicate 32 2⟩
    ∧ configured (configureWgInterfaceProtocolServer sampleEnv (World.start [])).outcome.trace
      = configured (World.start []).trace ++ [("wg-tunnel",
          { PrivateKey := some ⟨List.replicate 32 2⟩, ListenPort := some 51820,
            FirewallMark := none, ReplacePeers := true,
            Peers := [{ PublicKey := sampleEnv.PublicKey ⟨List.replicate 32 1⟩, Remove := false,
                        UpdateOnly := false, PresharedKey := none, Endpoint := none,
                        PersistentKeepaliveInterval := none, ReplaceAllowedIPs := true,
                        AllowedIPs := [{ ip := [10, 0, 0, 2], ones := 32 }] }] })] :=
  ⟨rfl, rfl, rfl,
    server_device_config sampleEnv (World.start []) ⟨List.replicate 32 1⟩ ⟨List.replicate 32 2⟩
      rfl rfl rfl⟩

/-- C2: in a client bootstrap with server public key `K`, client private key
`P` and server address `A` such that `A:51820` resolves to `E`, the device
configurations `configureWgInterfaceProtocolClient` applies are: none when
`wgctrl.New` fails, and otherwise exactly one, to `wg-tunnel`: private key
`P`, no listen port, replace-peers set, and one peer with public key `K`,
replace-allowed-IPs set, allowed IPs `[10.0.0.1/32]` and endpoint `E`. -/
theorem client_device_config (env : Env) (w : World) (K P : Key) (A : String) (E : UDPAddr)
    (hres : env.ResolveUDPAddr "" (A ++ ":51820") = .ok E) :
    configured (configureWgInterfaceProtocolClient env K P A w).outcome.trace
      = configured w.trace ++
        (if env.wgctrlNew = none then
          [("wg-tunnel",
            { PrivateKey := some P, ListenPort := none, FirewallMark := none,
              ReplacePeers := true,
              Peers := [{ PublicKey := K, Remove := false, UpdateOnly := false,
                          PresharedKey := none, Endpoint := some E,
                          PersistentKeepaliveInterval := none, ReplaceAllowedIPs := true,
                          AllowedIPs := [{ ip := [10, 0, 0, 1], ones := 32 }] }] })]
         else []) :=
  client_configured env w K P A E hres

theorem client_device_config_witness :
    sampleEnv.ResolveUDPAddr "" ("203.0.113.7" ++ ":51820")
        = .ok { ip := [203, 0, 113, 7], port := 51820 }
    ∧ configured (configureWgInterfaceProtocolClient sampleEnv ⟨List.replicate 32 23⟩
          ⟨List.replicate 32 1⟩ "203.0.113.7" (World.start [])).outcome.trace
      = configured (World.start []).trace ++
        (if sampleEnv.wgctrlNew = none then
          [("wg-tunnel",
            { PrivateKey := some ⟨List.replicate 32 1⟩, ListenPort := none, FirewallMark := none,
              ReplacePeers := true,
              Peers := [{ PublicKey := ⟨List.replicate 32 23⟩, Remove := false,
                          UpdateOnly := false, PresharedKey := none,
                          Endpoint := some { ip := [203, 0, 113, 7], port := 51820 },
                          PersistentKeepaliveInterval := none, ReplaceAllowedIPs := true,
                          AllowedIPs := [{ ip := [10, 0, 0, 1], ones := 32 }] }] })]
         else []) :=
  ⟨rfl,
    client_device_config sampleEnv (World.start []) ⟨List.replicate 32 23⟩ ⟨List.replicate 32 1⟩
      "203.0.113.7" { ip := [203, 0, 113, 7], port := 51820 } rfl⟩

/-- C3, as stated, fails in two places.  With four extra arguments of which
the first two are well-formed keys the run is no usage error: the client
flow runs (the link is created, one device configuration is applied, the
curl container is started) and the process exits with status 0.  With one
or two extra arguments that are well-formed keys no usage error is reported
either: the run halts in a run-time panic when `os.Args` is indexed out of
range, after the two banner lines only. -/
theorem extra_arguments_run_client_flow :
    (runMain sampleEnv []
        ["./tunnel", sampleServerPublicText, samplePeerPrivateText, "203.0.113.7", "extra"]).exitStatus
      = some 0
    ∧ Event.run ["ip", "link", "add", "wg-tunnel", "type", "wireguard"]
      ∈ (runMain sampleEnv []
        ["./tunnel", sampleServerPublicText, samplePeerPrivateText, "203.0.113.7", "extra"]).trace
    ∧ (configured (runMain sampleEnv []
        ["./tunnel", sampleServerPublicText, samplePeerPrivateText, "203.0.113.7", "extra"]).trace).length
      = 1
    ∧ Event.run ["docker", "run", "--rm", "-d", "-it", "--name", "curlContainer", "tutum/curl"]
      ∈ (runMain sampleEnv []
        ["./tunnel", sampleServerPublicText, samplePeerPrivateText, "203.0.113.7", "extra"]).trace
    ∧ runMain sampleEnv [] ["./tunnel", sampleServerPublicText] =
      { halted := some .panic,
        trace := [.print "<Wireguard Tunnel>\n", .print "Deploying client side of the tunnel\n"],
        host := [] }
    ∧ runMain sampleEnv [] ["./tunnel", sampleServerPublicText, samplePeerPrivateText] =
      { halted := some .panic,
        trace := [.print "<Wireguard Tunnel>\n", .print "Deploying client side of the tunnel\n"],
        host := [] } := by
  decide

/-- C3, amended: with zero extra arguments `main` runs the server flow; with
three or more extra arguments of which the first two are well-formed keys it
runs the client flow on the first three and ignores the others; and for any
number of extra arguments, when `ParseKey` rejects the first argument, or
accepts the first and rejects a second one, the run is the usage error: the
two banner lines, the line `Invalid arguments, exiting`, `os.Exit(1)`, no
other action, and the host untouched. -/
theorem main_role_selection (env : Env) (host : Host) :
    (∀ prog, runMain env host [prog] =
      (serverEndpoint env
        { host := host,
          trace := [.print "<Wireguard Tunnel>\n", .print "Deploying server side of the tunnel\n"],
          keyCalls := 0 }).outcome)
    ∧ (∀ prog k1 k2 addr rest K P, env.ParseKey k1 = some K → env.ParseKey k2 = some P →
      runMain env host (prog :: k1 :: k2 :: addr :: rest) =
        (clientEndpoint env K P addr
          { host := host,
            trace := [.print "<Wireguard Tunnel>\n",
              .print "Deploying client side of the tunnel\n"],
            keyCalls := 0 }).outcome)
    ∧ (∀ prog k1 rest, env.ParseKey k1 = none →
      runMain env host (prog :: k1 :: rest) =
        { halted := some (.exit 1),
          trace := [.print "<Wireguard Tunnel>\n", .print "Deploying client side of the tunnel\n",
                    .print "Invalid arguments, exiting\n"],
          host := host })
    ∧ (∀ prog k1 k2 rest K, env.ParseKey k1 = some K → env.ParseKey k2 = none →
      runMain env host (prog :: k1 :: k2 :: rest) =
        { halted := some (.exit 1),
          trace := [.print "<Wireguard Tunnel>\n", .print "Deploying client side of the tunnel\n",
                    .print "Invalid arguments, exiting\n"],
          host := host }) := by
  refine ⟨fun prog => main_server_eq env host prog,
    fun prog k1 k2 addr rest K P h1 h2 => main_client_eq env host prog k1 k2 addr rest K P h1 h2,
    ?_, ?_⟩
  · intro prog k1 rest h1
    simp [runMain, main, bind, Proc.bind, Println, emit, osArg, Proc.pure, h1, osExit, haltWith,
      Step.outcome, World.start]
  · intro prog k1 k2 rest K h1 h2
    simp [runMain, main, bind, Proc.bind, Println, emit, osArg, Proc.pure, h1, h2, osExit, haltWith,
      Step.outcome, World.start]

theorem main_role_selection_witness :
    (sampleEnv.ParseKey sampleServerPublicText = some ⟨List.replicate 32 23⟩
      ∧ sampleEnv.ParseKey samplePeerPrivateText = some ⟨List.replicate 32 1⟩
      ∧ runMain sampleEnv []
          ("./tunnel" :: sampleServerPublicText :: samplePeerPrivateText :: "203.0.113.7" :: ["extra"])
        = (clientEndpoint sampleEnv ⟨List.replicate 32 23⟩ ⟨List.replicate 32 1⟩ "203.0.113.7"
            { host := [],
              trace := [.print "<Wireguard Tunnel>\n",
                .print "Deploying client side of the tunnel\n"],
              keyCalls := 0 }).outcome)
    ∧ (sampleEnv.ParseKey "not-a-key" = none
      ∧ runMain sampleEnv []
          ("./tunnel" :: "not-a-key" :: [samplePeerPrivateText, "203.0.113.7", "extra"])
        = { halted := some (.exit 1),
            trace := [.print "<Wireguard Tunnel>\n",
              .print "Deploying client side of the tunnel\n",
              .print "Invalid arguments, exiting\n"],
            host := [] })
    ∧ (runMain sampleEnv [] ("./tunnel" :: sampleServerPublicText :: "not-a-key" :: [])
        = { halted := some (.exit 1),
            trace := [.print "<Wireguard Tunnel>\n",
              .print "Deploying client side of the tunnel\n",
              .print "Invalid arguments, exiting\n"],
            host := [] }) :=
  ⟨⟨by decide, by decide,
      (main_role_selection sampleEnv []).2.1 "./tunnel" sampleServerPublicText samplePeerPrivateText
        "203.0.113.7" ["extra"] ⟨List.replicate 32 23⟩ ⟨List.replicate 32 1⟩ (by decide) (by decide)⟩,
    ⟨by decide,
      (main_role_selection sampleEnv []).2.2.1 "./tunnel" "not-a-key"
        [samplePeerPrivateText, "203.0.113.7", "extra"] (by decide)⟩,
    (main_role_selection sampleEnv []).2.2.2 "./tunnel" sampleServerPublicText "not-a-key" []
      ⟨List.replicate 32 23⟩ (by decide) (by decide)⟩

/-- C4: with three extra arguments of which the first or the second is
rejected by `ParseKey`, the run consists of the two banner lines and the line
`Invalid arguments, exiting`, ends with `os.Exit(1)`, and performs no
action on links, devices or workloads: every event is a print and the
host is unchanged. -/
theorem malformed_key_usage_error (env : Env) (host : Host) (prog k1 k2 addr : String)
    (hbad : env.ParseKey k1 = none ∨ env.ParseKey k2 = none) :
    runMain env host [prog, k1, k2, addr] =
      { halted := some (.exit 1),
        trace := [.print "<Wireguard Tunnel>\n", .print "Deploying client side of the tunnel\n",
                  .print "Invalid arguments, exiting\n"],
        host := host }
    ∧ (runMain env host [prog, k1, k2, addr]).exitStatus = some 1
    ∧ ∀ e ∈ (runMain env host [prog, k1, k2, addr]).trace, e.isPrint = true := by
  cases h1 : env.ParseKey k1 with
  | none =>
    simp [runMain, main, bind, Proc.bind, Println, emit, osArg, Proc.pure, h1, osExit, haltWith,
      Step.outcome, World.start, Outcome.exitStatus, Event.isPrint]
  | some K =>
    have h2 : env.ParseKey k2 = none := by simpa [h1] using hbad
    simp [runMain, main, bind, Proc.bind, Println, emit, osArg, Proc.pure, h1, h2, osExit, haltWith,
      Step.outcome, World.start, Outcome.exitStatus, Event.isPrint]

theorem malformed_key_usage_error_witness :
    (sampleEnv.ParseKey sampleServerPublicText = none ∨ sampleEnv.ParseKey "not-a-key" = none)
    ∧ (runMain sampleEnv [] ["./tunnel", sampleServerPublicText, "not-a-key", "203.0.113.7"]).exitStatus
      = some 1 :=
  ⟨Or.inr (by decide),
    (malformed_key_usage_error sampleEnv [] "./tunnel" sampleServerPublicText "not-a-key"
      "203.0.113.7" (Or.inr (by decide))).2.1⟩

/-- C6, the code at the failing input: `netlink.AddrAdd` returns an error,
yet the provisioner returns to its caller, leaving a link without address,
and the run goes on to apply a device configuration, start the nginx
container and exit with status 0. -/
theorem provision_returns_when_assign_fails :
    assignFailsEnv.addrAddErr = some "no buffer space available"
    ∧ (configureWgInterfaceNetlink assignFailsEnv wgAddrServer (World.start [])).outcome.halted = none
    ∧ (configureWgInterfaceNetlink assignFailsEnv wgAddrServer (World.start [])).outcome.host
      = [{ name := "wg-tunnel", kind := "wireguard", addrs := [], up := true }]
    ∧ (configured (runMain assignFailsEnv [] ["./tunnel"]).trace).length = 1
    ∧ Event.run ["docker", "run", "--rm", "-d", "-p", "8080:80", "--name", "nginx", "nginx"]
      ∈ (runMain assignFailsEnv [] ["./tunnel"]).trace
    ∧ (runMain assignFailsEnv [] ["./tunnel"]).exitStatus = some 0 := by
  decide

/-- C7, as stated, fails: when stopping the nginx container fails during
teardown, the output of the command is printed and the process ends with
exit status 1, whereas it ends with 0 when the stop succeeds. -/
theorem stop_failure_exits_one :
    (runMain stopFailsEnv [] ["./tunnel"]).exitStatus = some 1
    ∧ (runMain stopFailsEnv [] ["./tunnel"]).trace.getLast?
      = some (.print "Error response from daemon: No such container: nginx\n\n")
    ∧ (runMain sampleEnv [] ["./tunnel"]).exitStatus = some 0 := by
  decide

/-- C7, amended: in either role, when the stop command fails during the
teardown an interrupt triggers, its output is printed and the process halts
with `os.Exit(1)`; and a run of `main` ends with exit status 0 only if a
stop command of the workload ran and returned no error. -/
theorem stop_failure_exit_status (env : Env) :
    (∀ w out e, env.interrupt = true →
      env.command ["docker", "container", "stop", "nginx"] = (out, some e) →
      (waitForInterrupt env (stopDockerNginx env) w).outcome =
        { halted := some (.exit 1),
          trace := w.trace ++ [.awaitInterrupt, .interrupt,
            .run ["docker", "container", "stop", "nginx"], .print (out ++ "\n")],
          host := w.host })
    ∧ (∀ w out e, env.interrupt = true →
      env.command ["docker", "container", "stop", "curlContainer"] = (out, some e) →
      (waitForInterrupt env (stopDockerCurl env) w).outcome =
        { halted := some (.exit 1),
          trace := w.trace ++ [.awaitInterrupt, .interrupt,
            .run ["docker", "container", "stop", "curlContainer"], .print (out ++ "\n")],
          host := w.host })
    ∧ (∀ host osArgs, (runMain env host osArgs).exitStatus = some 0 →
      StoppedCleanly env (runMain env host osArgs).trace) := by
  refine ⟨?_, ?_, ?_⟩
  · intro w out e hint hstop
    simp [waitForInterrupt, stopDockerNginx, CombinedOutput, execute, bind, Proc.bind, Println,
      emit, osExit, haltWith, hint, hstop, Step.outcome]
  · intro w out e hint hstop
    simp [waitForInterrupt, stopDockerCurl, CombinedOutput, execute, bind, Proc.bind, Println,
      emit, osExit, haltWith, hint, hstop, Step.outcome]
  · intro host osArgs hzero
    have hfin := final_main env osArgs (World.start host)
    unfold runMain at hzero ⊢
    cases hm : main env osArgs (World.start host) with
    | ok u w2 =>
      rw [hm] at hfin
      simpa [Step.outcome] using hfin
    | halt h w2 =>
      rw [hm] at hfin hzero
      cases h <;> simp [Step.outcome, Outcome.exitStatus] at hzero hfin
      exact absurd hzero hfin

theorem stop_failure_exit_status_witness :
    (stopFailsEnv.interrupt = true
      ∧ stopFailsEnv.command ["docker", "container", "stop", "nginx"]
        = ("Error response from daemon: No such container: nginx\n", some "exit status 1")
      ∧ (waitForInterrupt stopFailsEnv (stopDockerNginx stopFailsEnv) (World.start [])).outcome =
        { halted := some (.exit 1),
          trace := (World.start []).trace ++ [.awaitInterrupt, .interrupt,
            .run ["docker", "container", "stop", "nginx"],
            .print ("Error response from daemon: No such container: nginx\n" ++ "\n")],
          host := (World.start []).host })
    ∧ (stopFailsEnv.command ["docker", "container", "stop", "curlContainer"]
        = ("Error response from daemon: No such container: curlContainer\n", some "exit status 1")
      ∧ (waitForInterrupt stopFailsEnv (stopDockerCurl stopFailsEnv) (World.start [])).outcome =
        { halted := some (.exit 1),
          trace := (World.start []).trace ++ [.awaitInterrupt, .interrupt,
            .run ["docker", "container", "stop", "curlContainer"],
            .print ("Error response from daemon: No such container: curlContainer\n" ++ "\n")],
          host := (World.start []).host })
    ∧ ((runMain sampleEnv [] ["./tunnel"]).exitStatus = some 0
      ∧ StoppedCleanly sampleEnv (runMain sampleEnv [] ["./tunnel"]).trace) :=
  ⟨⟨rfl, rfl,
      (stop_failure_exit_status stopFailsEnv).1 (World.start [])
        "Error response from daemon: No such container: nginx\n" "exit status 1" rfl rfl⟩,
    ⟨rfl,
      (stop_failure_exit_status stopFailsEnv).2.1 (World.start [])
        "Error response from daemon: No such container: curlContainer\n" "exit status 1" rfl rfl⟩,
    ⟨by decide, (stop_failure_exit_status sampleEnv).2.2 [] ["./tunnel"] (by decide)⟩⟩

/-- C8, the code at the failing input: `netlink.LinkSetUp` returns an error
during provisioning in the client role, so provisioning has failed (the
link stays down), yet the run goes on and the stop callback is invoked once
at the interrupt. -/
theorem stop_invoked_after_failed_link_up :
    linkUpFailsEnv.linkSetUpErr = some "no buffer space available"
    ∧ (configureWgInterfaceNetlink linkUpFailsEnv wgAddrClient (World.start [])).outcome.host
      = [{ name := "wg-tunnel", kind := "wireguard", addrs := [{ ip := [10, 0, 0, 2], ones := 24 }],
           up := false }]
    ∧ (runMain linkUpFailsEnv []
        ["./tunnel", sampleServerPublicText, samplePeerPrivateText, "203.0.113.7"]).trace.count
          (.run ["docker", "container", "stop", "curlContainer"]) = 1
    ∧ (runMain linkUpFailsEnv []
        ["./tunnel", sampleServerPublicText, samplePeerPrivateText, "203.0.113.7"]).exitStatus
      = some 0 := by
  decide

/-- C10, the code on every input: the command `runDockerNginx` starts has
the publish argument `8080:80`, which names no host address, so the port is
published on every address of the host and not only on 10.0.0.1. -/
theorem nginx_publish_argument (env : Env) (w : World) :
    ∃ rest, (runDockerNginx env w).outcome.trace =
      w.trace ++ [.print "Starting Nginx container\n",
        .run ["docker", "run", "--rm", "-d", "-p", "8080:80", "--name", "nginx", "nginx"]]
        ++ rest := by
  rcases hrun : env.command ["docker", "run", "--rm", "-d", "-p", "8080:80", "--name", "nginx",
    "nginx"] with ⟨out, err⟩
  rcases hstop : env.command ["docker", "container", "stop", "nginx"] with ⟨out2, err2⟩
  cases err <;> cases hint : env.interrupt <;> cases err2 <;>
    simp [runDockerNginx, stopDockerNginx, waitForInterrupt, CombinedOutput, execute, bind, Proc.bind,
      Println, Printf, emit, osExit, haltWith, nginxPublishedPort, hrun, hstop, hint, Step.outcome]

theorem provisionResult_ok (env : Env) (h h1 : Host) (wgAddr : String)
    (hr : provisionResult env h wgAddr = (none, h1)) :
    ∃ l : Link, l.name = wgIfName ∧ h1 = h ++ [l] := by
  unfold provisionResult at hr
  split at hr
  · simp at hr
  · split at hr
    · simp at hr
    · simp only [Prod.mk.injEq, true_and] at hr
      exact ⟨_, rfl, hr.symm⟩

/-- C5: when the server configurator succeeds with generated peer key `P`
and server key `S`, it prints the line
`$ ./tunnel <text of S's public key> <text of P> <public ip of server>`,
and it applies one configuration, with private key `S` and a single peer
whose public key is that of `P`.  If `ParseKey` on the client gives back the
two printed keys, then every configuration a client started with the two
texts as its first two arguments applies has private key `P` and a single
peer whose public key is that of `S`; and the client applies exactly one
when its provisioning returns, `wgctrl.New` succeeds and the address
resolves. -/
theorem key_handoff_round_trip (envS envC : Env) (wS : World) (hostC : Host) (S P : Key)
    (prog addr : String)
    (hnew : envS.wgctrlNew = none)
    (hP : envS.GeneratePrivateKey wS.keyCalls = .ok P)
    (hS : envS.GeneratePrivateKey (wS.keyCalls + 1) = .ok S)
    (hok : (configureWgInterfaceProtocolServer envS wS).outcome.halted = none)
    (hinvS : envC.ParseKey (envS.KeyString (envS.PublicKey S)) = some (envS.PublicKey S))
    (hinvP : envC.ParseKey (envS.KeyString P) = some P) :
    Event.print ("\t$ ./tunnel " ++ envS.KeyString (envS.PublicKey S) ++ " "
        ++ envS.KeyString P ++ " <public ip of server>\n")
      ∈ (configureWgInterfaceProtocolServer envS wS).outcome.trace
    ∧ (∃ cfgS, configured (configureWgInterfaceProtocolServer envS wS).outcome.trace
          = configured wS.trace ++ [(wgIfName, cfgS)]
        ∧ cfgS.PrivateKey = some S
        ∧ cfgS.Peers.map (fun p => p.PublicKey) = [envS.PublicKey P])
    ∧ (∀ name cfgC,
        (name, cfgC) ∈ configured (runMain envC hostC
          [prog, envS.KeyString (envS.PublicKey S), envS.KeyString P, addr]).trace →
        cfgC.PrivateKey = some P
        ∧ cfgC.Peers.map (fun p => p.PublicKey) = [envS.PublicKey S])
    ∧ (∀ E,
        (configureWgInterfaceNetlink envC wgAddrClient
          { host := hostC,
            trace := [.print "<Wireguard Tunnel>\n",
              .print "Deploying client side of the tunnel\n"],
            keyCalls := 0 }).outcome.halted = none →
        envC.wgctrlNew = none →
        envC.ResolveUDPAddr "" (addr ++ ":51820") = .ok E →
        (configured (runMain envC hostC
          [prog, envS.KeyString (envS.PublicKey S), envS.KeyString P, addr]).trace).length = 1) := by
  refine ⟨?_, ?_, ?_, ?_⟩
  · simp only [configureWgInterfaceProtocolServer, bind, Proc.bind, wgctrlNew, emit, pure,
      Proc.pure, hnew, GeneratePrivateKey, hP, hS, parseCIDR_peerAddrClient, ConfigureDevice]
      at hok ⊢
    cases hc : envS.ConfigureDevice wgIfName _ with
    | some e =>
      simp [hc, Step.outcome, Printf, emit, osExit, haltWith, bind, Proc.bind] at hok
    | none =>
      simp [hc, Step.outcome, Printf, Println, emit, Close, bind, Proc.bind]
  · exact ⟨_, server_configured envS wS P S hnew hP hS, rfl, rfl⟩
  · intro name cfgC hmem
    rw [main_client_eq envC hostC prog _ _ addr [] _ _ hinvS hinvP] at hmem
    have hall := emits_trace_mem (emits_clientEndpoint envC (envS.PublicKey S) P addr)
      { host := hostC,
        trace := [.print "<Wireguard Tunnel>\n", .print "Deploying client side of the tunnel\n"],
        keyCalls := 0 }
      (by intro e he name cfg h; subst h; simp at he)
    exact hall _ ((mem_configured name cfgC _).1 hmem) name cfgC rfl
  · intro E hprov hnewC hres
    rw [main_client_eq envC hostC prog _ _ addr [] _ _ hinvS hinvP,
      clientEndpoint_configured envC _ _ _ addr E hprov hnewC hres]
    simp [configured]

theorem key_handoff_round_trip_witness :
    (sampleEnv.wgctrlNew = none
      ∧ sampleEnv.GeneratePrivateKey 0 = .ok ⟨List.replicate 32 1⟩
      ∧ sampleEnv.GeneratePrivateKey 1 = .ok ⟨List.replicate 32 2⟩
      ∧ (configureWgInterfaceProtocolServer sampleEnv (World.start [])).outcome.halted = none
      ∧ sampleEnv.ParseKey (sampleEnv.KeyString (sampleEnv.PublicKey ⟨List.replicate 32 2⟩))
        = some (sampleEnv.PublicKey ⟨List.replicate 32 2⟩)
      ∧ sampleEnv.ParseKey (sampleEnv.KeyString ⟨List.replicate 32 1⟩)
        = some ⟨List.replicate 32 1⟩)
    ∧ Event.print ("\t$ ./tunnel "
        ++ sampleEnv.KeyString (sampleEnv.PublicKey ⟨List.replicate 32 2⟩) ++ " "
        ++ sampleEnv.KeyString ⟨List.replicate 32 1⟩ ++ " <public ip of server>\n")
      ∈ (configureWgInterfaceProtocolServer sampleEnv (World.start [])).outcome.trace
    ∧ (configured (runMain sampleEnv []
        ["./tunnel", sampleEnv.KeyString (sampleEnv.PublicKey ⟨List.replicate 32 2⟩),
          sampleEnv.KeyString ⟨List.replicate 32 1⟩, "203.0.113.7"]).trace).length = 1
    ∧ (("wg-tunnel",
          { PrivateKey := some ⟨List.replicate 32 1⟩, ReplacePeers := true,
            Peers := [{ PublicKey := sampleEnv.PublicKey ⟨List.replicate 32 2⟩,
                        ReplaceAllowedIPs := true,
                        AllowedIPs := [{ ip := [10, 0, 0, 1], ones := 32 }],
                        Endpoint := some { ip := [203, 0, 113, 7], port := 51820 } }] })
        ∈ configured (runMain sampleEnv []
          ["./tunnel", sampleEnv.KeyString (sampleEnv.PublicKey ⟨List.replicate 32 2⟩),
            sampleEnv.KeyString ⟨List.replicate 32 1⟩, "203.0.113.7"]).trace
      ∧ ([{ PublicKey := sampleEnv.PublicKey ⟨List.replicate 32 2⟩,
            ReplaceAllowedIPs := true,
            AllowedIPs := [{ ip := [10, 0, 0, 1], ones := 32 }],
            Endpoint := some { ip := [203, 0, 113, 7], port := 51820 } }] : List PeerConfig).map
          (fun p => p.PublicKey) = [sampleEnv.PublicKey ⟨List.replicate 32 2⟩]) :=
  ⟨⟨rfl, rfl, rfl, by decide, by decide, by decide⟩,
    (key_handoff_round_trip sampleEnv sampleEnv (World.start []) [] ⟨List.replicate 32 2⟩
      ⟨List.replicate 32 1⟩ "./tunnel" "203.0.113.7" rfl rfl rfl (by decide) (by decide)
      (by decide)).1,
    (key_handoff_round_trip sampleEnv sampleEnv (World.start []) [] ⟨List.replicate 32 2⟩
      ⟨List.replicate 32 1⟩ "./tunnel" "203.0.113.7" rfl rfl rfl (by decide) (by decide)
      (by decide)).2.2.2 { ip := [203, 0, 113, 7], port := 51820 } (by decide) rfl rfl,
    by decide,
    ((key_handoff_round_trip sampleEnv sampleEnv (World.start []) [] ⟨List.replicate 32 2⟩
      ⟨List.replicate 32 1⟩ "./tunnel" "203.0.113.7" rfl rfl rfl (by decide) (by decide)
      (by decide)).2.2.1 "wg-tunnel"
        { PrivateKey := some ⟨List.replicate 32 1⟩, ReplacePeers := true,
          Peers := [{ PublicKey := sampleEnv.PublicKey ⟨List.replicate 32 2⟩,
                      ReplaceAllowedIPs := true,
                      AllowedIPs := [{ ip := [10, 0, 0, 1], ones := 32 }],
                      Endpoint := some { ip := [203, 0, 113, 7], port := 51820 } }] }
        (by decide)).2⟩

/-- C9, as stated, fails: on a host whose link `wg-tunnel` cannot be deleted
(`netlink.LinkDel` returns an error, which the provisioner drops) the create
command fails because the name is taken and the provisioner ends with
`os.Exit(1)`, leaving the old link in place, whereas on the same host
without that link it returns and leaves the fresh link. -/
theorem undeletable_link_is_fatal :
    hasLink [{ name := "wg-tunnel", kind := "ethernet", addrs := [], up := true }] wgIfName = true
    ∧ (configureWgInterfaceNetlink deleteFailsEnv wgAddrServer
        (World.start [{ name := "wg-tunnel", kind := "ethernet", addrs := [], up := true }])).outcome
      = { halted := some (.exit 1),
          trace := [.linkByName "wg-tunnel",
            .print "Interface exists: wg-tunnel, deleting to recreate\n",
            .linkDel "wg-tunnel",
            .run ["ip", "link", "add", "wg-tunnel", "type", "wireguard"],
            .print "Error adding wireguard interface [ip link add ...]: exit status 2\n"],
          host := [{ name := "wg-tunnel", kind := "ethernet", addrs := [], up := true }] }
    ∧ (configureWgInterfaceNetlink deleteFailsEnv wgAddrServer (World.start [])).outcome.halted
      = none
    ∧ (configureWgInterfaceNetlink deleteFailsEnv wgAddrServer (World.start [])).outcome.host
      = [{ name := "wg-tunnel", kind := "wireguard",
           addrs := [{ ip := [10, 0, 0, 1], ones := 24 }], up := true }] := by
  decide

/-- C9, amended: on a host that has a link named `wg-tunnel`, and with the
delete request carried out, `configureWgInterfaceNetlink` looks the link up,
deletes it and only then runs the create command; it halts or returns
exactly as on the same host without that link and leaves the same links;
when create, assign and up succeed it returns, leaving the other links and
one fresh `wg-tunnel` of kind wireguard with the given address, up; and
running it again after it returned leaves the same links. -/
theorem provision_idempotent (env : Env) (w : World) (address : String)
    (hex : hasLink w.host wgIfName = true) (hdel : env.linkDelErr = none) :
    (w.trace ++ [.linkByName wgIfName,
        .print "Interface exists: wg-tunnel, deleting to recreate\n",
        .linkDel wgIfName,
        .run ["ip", "link", "add", wgIfName, "type", "wireguard"]])
      <+: (configureWgInterfaceNetlink env address w).outcome.trace
    ∧ (configureWgInterfaceNetlink env address w).outcome.halted
      = (configureWgInterfaceNetlink env address
          { w with host := removeLink w.host wgIfName }).outcome.halted
    ∧ (configureWgInterfaceNetlink env address w).outcome.host
      = (configureWgInterfaceNetlink env address
          { w with host := removeLink w.host wgIfName }).outcome.host
    ∧ (∀ a, ParseAddr address = some a → env.linkAddErr = none → env.addrAddErr = none →
        env.linkSetUpErr = none →
        (configureWgInterfaceNetlink env address w).outcome.halted = none
        ∧ (configureWgInterfaceNetlink env address w).outcome.host
          = removeLink w.host wgIfName
            ++ [{ name := wgIfName, kind := "wireguard", addrs := [a], up := true }])
    ∧ (∀ w1, configureWgInterfaceNetlink env address w = .ok () w1 →
        (configureWgInterfaceNetlink env address w1).outcome.halted = none
        ∧ (configureWgInterfaceNetlink env address w1).outcome.host = w1.host) := by
  have h1 := provision_existing env w address hex hdel
  have h0 := provision_fresh env { w with host := removeLink w.host wgIfName } address
    (hasLink_removeLink w.host wgIfName)
  simp only at h0
  refine ⟨provision_existing_trace env w address hex hdel, ?_, ?_, ?_, ?_⟩
  · exact (congrArg Prod.fst h1).trans (congrArg Prod.fst h0).symm
  · exact (congrArg Prod.snd h1).trans (congrArg Prod.snd h0).symm
  · intro a hp hadd haa hup
    have hr : provisionResult env (removeLink w.host wgIfName) address
        = (none, removeLink w.host wgIfName
            ++ [{ name := wgIfName, kind := "wireguard", addrs := [a], up := true }]) := by
      simp [provisionResult, hp, hadd, haa, hup, freshLink]
    rw [hr] at h1
    exact ⟨congrArg Prod.fst h1, congrArg Prod.snd h1⟩
  · intro w1 hrun
    have hres : provisionResult env (removeLink w.host wgIfName) address = (none, w1.host) := by
      rw [← h1, hrun]
      rfl
    obtain ⟨l, hl, hhost⟩ := provisionResult_ok env _ _ _ hres
    have hex1 : hasLink w1.host wgIfName = true := by
      rw [hhost]
      exact hasLink_append_single _ _ l hl
    have h2 := provision_existing env w1 address hex1 hdel
    have hrem : removeLink w1.host wgIfName = removeLink w.host wgIfName := by
      rw [hhost, removeLink_append_single _ _ l hl]
      exact removeLink_of_not_hasLink _ _ (hasLink_removeLink w.host wgIfName)
    rw [hrem, hres] at h2
    exact ⟨congrArg Prod.fst h2, congrArg Prod.snd h2⟩

theorem provision_idempotent_witness :
    (hasLink (World.start [{ name := "wg-tunnel", kind := "dummy", addrs := [], up := true },
        { name := "lo", kind := "loopback", addrs := [], up := true }]).host wgIfName = true
      ∧ sampleEnv.linkDelErr = none)
    ∧ (ParseAddr wgAddrServer = some { ip := [10, 0, 0, 1], ones := 24 }
      ∧ sampleEnv.linkAddErr = none ∧ sampleEnv.addrAddErr = none
      ∧ sampleEnv.linkSetUpErr = none
      ∧ (configureWgInterfaceNetlink sampleEnv wgAddrServer
          (World.start [{ name := "wg-tunnel", kind := "dummy", addrs := [], up := true },
            { name := "lo", kind := "loopback", addrs := [], up := true }])).outcome.halted = none)
    ∧ (configureWgInterfaceNetlink sampleEnv wgAddrServer
        (World.start [{ name := "wg-tunnel", kind := "dummy", addrs := [], up := true },
          { name := "lo", kind := "loopback", addrs := [], up := true }])).outcome.host
      = (configureWgInterfaceNetlink sampleEnv wgAddrServer
          { World.start [{ name := "wg-tunnel", kind := "dummy", addrs := [], up := true },
              { name := "lo", kind := "loopback", addrs := [], up := true }] with
            host := removeLink
              (World.start [{ name := "wg-tunnel", kind := "dummy", addrs := [], up := true },
                { name := "lo", kind := "loopback", addrs := [], up := true }]).host
              wgIfName }).outcome.host
    ∧ (configureWgInterfaceNetlink sampleEnv wgAddrServer
          (World.start [{ name := "wg-tunnel", kind := "dummy", addrs := [], up := true },
            { name := "lo", kind := "loopback", addrs := [], up := true }])
        = .ok ()
          { host := [{ name := "lo", kind := "loopback", addrs := [], up := true },
              { name := "wg-tunnel", kind := "wireguard",
                addrs := [{ ip := [10, 0, 0, 1], ones := 24 }], up := true }],
            trace := [.linkByName "wg-tunnel",
              .print "Interface exists: wg-tunnel, deleting to recreate\n",
              .linkDel "wg-tunnel",
              .run ["ip", "link", "add", "wg-tunnel", "type", "wireguard"],
              .print "Interface added\n", .linkByName "wg-tunnel",
              .addrAdd "wg-tunnel" { ip := [10, 0, 0, 1], ones := 24 },
              .linkSetUp "wg-tunnel"],
            keyCalls := 0 }
      ∧ (configureWgInterfaceNetlink sampleEnv wgAddrServer
          { host := [{ name := "lo", kind := "loopback", addrs := [], up := true },
              { name := "wg-tunnel", kind := "wireguard",
                addrs := [{ ip := [10, 0, 0, 1], ones := 24 }], up := true }],
            trace := [.linkByName "wg-tunnel",
              .print "Interface exists: wg-tunnel, deleting to recreate\n",
              .linkDel "wg-tunnel",
              .run ["ip", "link", "add", "wg-tunnel", "type", "wireguard"],
              .print "Interface added\n", .linkByName "wg-tunnel",
              .addrAdd "wg-tunnel" { ip := [10, 0, 0, 1], ones := 24 },
              .linkSetUp "wg-tunnel"],
            keyCalls := 0 }).outcome.host
        = [{ name := "lo", kind := "loopback", addrs := [], up := true },
            { name := "wg-tunnel", kind := "wireguard",
              addrs := [{ ip := [10, 0, 0, 1], ones := 24 }], up := true }]) :=
  ⟨⟨by decide, rfl⟩,
    ⟨by decide, rfl, rfl, rfl,
      ((provision_idempotent sampleEnv
        (World.start [{ name := "wg-tunnel", kind := "dummy", addrs := [], up := true },
          { name := "lo", kind := "loopback", addrs := [], up := true }])
        wgAddrServer (by decide) rfl).2.2.2.1 { ip := [10, 0, 0, 1], ones := 24 } (by decide)
          rfl rfl rfl).1⟩,
    (provision_idempotent sampleEnv
      (World.start [{ name := "wg-tunnel", kind := "dummy", addrs := [], up := true },
        { name := "lo", kind := "loopback", addrs := [], up := true }])
      wgAddrServer (by decide) rfl).2.2.1,
    ⟨rfl,
      ((provision_idempotent sampleEnv
        (World.start [{ name := "wg-tunnel", kind := "dummy", addrs := [], up := true },
          { name := "lo", kind := "loopback", addrs := [], up := true }])
        wgAddrServer (by decide) rfl).2.2.2.2 _ rfl).2⟩⟩

end WgTunnel
